import Mathlib

/-!
Verification of the workflow declared in `dags/example_dag.py`.

The file embeds the three task functions of the `simple_requests_dag`
workflow (`fetch_users_data`, `fetch_user_posts`, `process_all_data`) as
pure Lean functions.  The HTTP layer is modelled by an explicit client
argument (a function from requests to either a network-level error or a
response); each task function returns both its Python-level outcome
(normal value or raised exception) and the list of HTTP requests it
issued, so that properties about the requests themselves can be stated.
Python exceptions are modelled by an explicit error type threaded through
`Except`.  The declared task graph of the DAG is embedded as an edge
relation over the task nodes.
-/

namespace ExampleDag

/-- JSON values, the shape of parsed HTTP response bodies. -/
inductive Json where
  | null
  | bool (b : Bool)
  | num (n : Int)
  | str (s : String)
  | arr (elems : List Json)
  | obj (fields : List (String × Json))

/-- An outbound HTTP request as issued by `requests.get(url, timeout=...)`. -/
structure HttpRequest where
  method : String
  url : String
  timeout : Nat
deriving DecidableEq

/-- An HTTP response: a status code and a body.  The body is `some j` when
the raw body parses as the JSON value `j`, and `none` when it is not valid
JSON (so that `response.json()` raises). -/
structure HttpResponse where
  status : Nat
  body : Option Json

/-- The HTTP client: maps a request either to a network-level failure
(`requests` exceptions such as `ConnectionError` / `Timeout`, carrying a
message) or to a response. -/
def Client : Type := HttpRequest → Except String HttpResponse

/-- Python exceptions that the embedded code can raise. -/
inductive PyExn where
  /-- A network-level `requests.exceptions.RequestException` (e.g.
  `ConnectionError`, `Timeout`), carrying its message. -/
  | requestException (msg : String)
  /-- `requests.exceptions.HTTPError` raised by `raise_for_status()`. -/
  | httpError (status : Nat)
  /-- The error raised by `response.json()` on a body that is not valid JSON. -/
  | jsonDecodeError
  /-- Python `KeyError` for a missing key. -/
  | keyError (key : String)
  /-- Python `TypeError` (wrong type for an operation such as indexing or `len`). -/
  | typeError
  /-- Python `IndexError` (list index out of range). -/
  | indexError
deriving DecidableEq

/-- Whether an exception is an instance of
`requests.exceptions.RequestException`, the class caught by the `except`
branches of the two fetch tasks.  Network errors and `HTTPError` are;
`response.json()` decode errors also subclass it in current `requests`;
`KeyError`, `TypeError` and `IndexError` are not. -/
def PyExn.isRequestException : PyExn → Bool
  | .requestException _ => true
  | .httpError _ => true
  | .jsonDecodeError => true
  | .keyError _ => false
  | .typeError => false
  | .indexError => false

/-- Whether an exception is a network failure or a bad-HTTP-status failure
(the errors the spec calls "network or HTTP-status failure"). -/
def PyExn.isNetworkOrStatusError : PyExn → Bool
  | .requestException _ => true
  | .httpError _ => true
  | _ => false

/-- `response.raise_for_status()`: raises `HTTPError` exactly for 4xx/5xx
status codes. -/
def raise_for_status (r : HttpResponse) : Except PyExn Unit :=
  if 400 ≤ r.status ∧ r.status < 600 then Except.error (PyExn.httpError r.status)
  else Except.ok ()

/-- Whether `raise_for_status` raises for this status code. -/
def badStatus (s : Nat) : Bool := 400 ≤ s && s < 600

/-- `response.json()`: the parsed body, or a JSON-decode error when the body
is not valid JSON. -/
def responseJson (r : HttpResponse) : Except PyExn Json :=
  match r.body with
  | some j => Except.ok j
  | none => Except.error PyExn.jsonDecodeError

/-- A Python subscript key: an integer index or a string key. -/
inductive PyKey where
  | int (i : Int)
  | str (s : String)

/-- Python subscript `j[k]` on a parsed-JSON value: list indexing (with
negative-index wrap-around), dict key lookup, or string indexing;
`KeyError` for a missing dict key, `IndexError` out of range, `TypeError`
for an unsupported combination. -/
def subscript (j : Json) (k : PyKey) : Except PyExn Json :=
  match j, k with
  | Json.arr xs, PyKey.int i =>
      let idx : Int := if i < 0 then i + xs.length else i
      if h : 0 ≤ idx ∧ idx.toNat < xs.length then Except.ok (xs.get ⟨idx.toNat, h.2⟩)
      else Except.error PyExn.indexError
  | Json.arr _, PyKey.str _ => Except.error PyExn.typeError
  | Json.obj fields, PyKey.str s =>
      match fields.lookup s with
      | some v => Except.ok v
      | none => Except.error (PyExn.keyError s)
  | Json.obj _, PyKey.int i => Except.error (PyExn.keyError (toString i))
  | Json.str s, PyKey.int i =>
      let idx : Int := if i < 0 then i + s.length else i
      if h : 0 ≤ idx ∧ idx.toNat < s.data.length then
        Except.ok (Json.str (String.singleton (s.data.get ⟨idx.toNat, h.2⟩)))
      else Except.error PyExn.indexError
  | _, _ => Except.error PyExn.typeError

/-- Python iteration over a parsed-JSON value: lists yield their elements,
dicts yield their keys, strings yield their one-character substrings;
other values are not iterable. -/
def pyIter : Json → Except PyExn (List Json)
  | Json.arr xs => Except.ok xs
  | Json.obj fields => Except.ok (fields.map (fun kv => Json.str kv.fst))
  | Json.str s => Except.ok (s.data.map (fun c => Json.str (String.singleton c)))
  | _ => Except.error PyExn.typeError

/-- Python `len` on a parsed-JSON value. -/
def pyLen : Json → Except PyExn Nat
  | Json.arr xs => Except.ok xs.length
  | Json.obj fields => Except.ok fields.length
  | Json.str s => Except.ok s.length
  | _ => Except.error PyExn.typeError

/-- Python truthiness of a parsed-JSON value (used by `if posts:`). -/
def truthy : Json → Bool
  | Json.null => false
  | Json.bool b => b
  | Json.num n => n != 0
  | Json.str s => s != ""
  | Json.arr xs => !xs.isEmpty
  | Json.obj fields => !fields.isEmpty

/-- The list comprehension `[user["id"] for user in users]`, over the
already-obtained iteration sequence: collects `user["id"]` left to right,
propagating the first exception. -/
def extractIds : List Json → Except PyExn (List Json)
  | [] => Except.ok []
  | u :: us => do
      let i ← subscript u (PyKey.str "id")
      let rest ← extractIds us
      pure (i :: rest)

/-- The single request issued by `fetch_users_data`. -/
def usersRequest : HttpRequest :=
  { method := "GET"
    url := "https://jsonplaceholder.typicode.com/users"
    timeout := 10 }

/-- The single request issued by `fetch_user_posts(user_id)`
(the f-string `f"https://jsonplaceholder.typicode.com/users/{user_id}/posts"`). -/
def postsRequest (user_id : Int) : HttpRequest :=
  { method := "GET"
    url := "https://jsonplaceholder.typicode.com/users/" ++ toString user_id ++ "/posts"
    timeout := 10 }

/-- The `fetch_users_data` task: GET the users endpoint, raise for a bad
status, parse JSON, extract `user["id"]` for each user, and return the id
list.  `RequestException`s are caught, printed and re-raised unchanged, so
every exception of the body propagates to the caller unmodified.  Returns
the task outcome paired with the list of HTTP requests issued. -/
def fetch_users_data (client : Client) :
    Except PyExn (List Json) × List HttpRequest :=
  let result : Except PyExn (List Json) := do
    let response ←
      match client usersRequest with
      | Except.error msg => Except.error (PyExn.requestException msg)
      | Except.ok r => Except.ok r
    raise_for_status response
    let users ← responseJson response
    let elems ← pyIter users
    let user_ids ← extractIds elems
    let _printedLen ← pyLen users
    pure user_ids
  (result, [usersRequest])

/-- The `fetch_user_posts` task: GET the per-user posts endpoint, raise for
a bad status, parse JSON, print `len(posts)`, and when `posts` is truthy
print `posts[0]['title']`; return the parsed posts.  `RequestException`s
are caught, printed and re-raised unchanged, so every exception of the
body propagates to the caller unmodified.  Returns the task outcome paired
with the list of HTTP requests issued. -/
def fetch_user_posts (client : Client) (user_id : Int) :
    Except PyExn Json × List HttpRequest :=
  let result : Except PyExn Json := do
    let response ←
      match client (postsRequest user_id) with
      | Except.error msg => Except.error (PyExn.requestException msg)
      | Except.ok r => Except.ok r
    raise_for_status response
    let posts ← responseJson response
    let _printedLen ← pyLen posts
    if truthy posts then do
      let firstPost ← subscript posts (PyKey.int 0)
      let _title ← subscript firstPost (PyKey.str "title")
      pure posts
    else
      pure posts
  (result, [postsRequest user_id])

/-- The `process_all_data` task: prints the number of users, prints the
total number of posts (the sum of the per-user post-list lengths), prints a
completion line, and falls off the end of the function body, i.e. returns
`None`.  The result is the list of printed lines paired with the return
value. -/
def process_all_data (all_users_data : List Int)
    (all_posts_data : List (List Json)) : List String × Option Nat :=
  let total_posts_fetched := (all_posts_data.map List.length).sum
  ( [ "Received data for " ++ toString all_users_data.length ++ " users."
    , "Total posts fetched across all users: " ++ toString total_posts_fetched
    , "Data processing complete." ]
  , none )

/-- The nodes of the task graph declared by `simple_requests_workflow`:
the users fetch, one mapped posts fetch per user id, and the aggregation. -/
inductive TaskNode where
  | fetchUsersData
  | fetchUserPosts (i : Nat)
  | processAllData
deriving DecidableEq

/-- The dependency edges declared by `simple_requests_workflow` for `n`
mapped instances: `fetch_user_posts.expand(user_id=user_ids)` makes every
mapped posts task downstream of `fetch_users_data`, and
`process_all_data(user_ids, user_posts)` makes the aggregation downstream
of `fetch_users_data` and of every mapped posts task. -/
inductive WorkflowEdge (n : Nat) : TaskNode → TaskNode → Prop where
  | fanOut (i : Nat) (h : i < n) :
      WorkflowEdge n TaskNode.fetchUsersData (TaskNode.fetchUserPosts i)
  | usersToProcess :
      WorkflowEdge n TaskNode.fetchUsersData TaskNode.processAllData
  | postsToProcess (i : Nat) (h : i < n) :
      WorkflowEdge n (TaskNode.fetchUserPosts i) TaskNode.processAllData

/-- A topological rank witnessing acyclicity of the declared graph. -/
def TaskNode.rank : TaskNode → Nat
  | TaskNode.fetchUsersData => 0
  | TaskNode.fetchUserPosts _ => 1
  | TaskNode.processAllData => 2

/-- A request is an unauthenticated GET to the fixed public REST API with a
10-second timeout. -/
def isApiGet (r : HttpRequest) : Prop :=
  r.method = "GET" ∧ r.timeout = 10 ∧
    ∃ rest, r.url = "https://jsonplaceholder.typicode.com/" ++ rest

/-- A demonstration client used by concrete witnesses: it answers every
request with status 200 and a fixed two-user payload. -/
def demoUsersClient : Client := fun _ =>
  Except.ok
    { status := 200
      body := some (Json.arr
        [ Json.obj [("id", Json.num 1), ("name", Json.str "Leanne")]
        , Json.obj [("id", Json.num 2), ("name", Json.str "Ervin")] ]) }

/-- A client whose every call fails at the network level. -/
def failingClient : Client := fun _ => Except.error "connection refused"

/-- When the status check passes, `raise_for_status` returns normally. -/
theorem raise_for_status_of_goodStatus {r : HttpResponse}
    (h : badStatus r.status = false) : raise_for_status r = Except.ok () := by
  unfold badStatus at h
  simp only [Bool.and_eq_false_iff, decide_eq_false_iff_not] at h
  unfold raise_for_status
  rw [if_neg]
  intro hc
  rcases h with h | h
  · exact h hc.1
  · exact h hc.2

/-- When the status is 4xx/5xx, `raise_for_status` raises `HTTPError`. -/
theorem raise_for_status_of_badStatus {r : HttpResponse}
    (h : badStatus r.status = true) :
    raise_for_status r = Except.error (PyExn.httpError r.status) := by
  unfold badStatus at h
  simp only [Bool.and_eq_true, decide_eq_true_eq] at h
  unfold raise_for_status
  rw [if_pos h]

/-- The comprehension returns the ids, element by element, whenever every
element yields an id. -/
theorem extractIds_of_forall₂ {users ids : List Json}
    (h : List.Forall₂ (fun u i => subscript u (PyKey.str "id") = Except.ok i)
      users ids) :
    extractIds users = Except.ok ids := by
  induction h with
  | nil => rfl
  | cons h _ ih =>
      simp only [extractIds, h, ih, bind, Except.bind, pure, Except.pure]

/-- C1: for every JSON payload that is a list of user objects returned by
the (mocked) HTTP client with a passing status, the user-id extraction in
`fetch_users_data` returns the list of the `"id"` field of each user
object, in payload order. -/
theorem fetch_users_data_extracts_ids (client : Client) (resp : HttpResponse)
    (users ids : List Json)
    (hresp : client usersRequest = Except.ok resp)
    (hstat : badStatus resp.status = false)
    (hbody : resp.body = some (Json.arr users))
    (hids : List.Forall₂ (fun u i => subscript u (PyKey.str "id") = Except.ok i)
      users ids) :
    (fetch_users_data client).fst = Except.ok ids := by
  unfold fetch_users_data
  simp only [hresp, raise_for_status_of_goodStatus hstat, hbody, responseJson,
    pyIter, pyLen, extractIds_of_forall₂ hids, bind, Except.bind, pure, Except.pure]

/-- C1 witness: on the demonstration client the extraction returns `[1, 2]`. -/
theorem fetch_users_data_extracts_ids_witness :
    (fetch_users_data demoUsersClient).fst =
      Except.ok [Json.num 1, Json.num 2] :=
  fetch_users_data_extracts_ids demoUsersClient
    { status := 200
      body := some (Json.arr
        [ Json.obj [("id", Json.num 1), ("name", Json.str "Leanne")]
        , Json.obj [("id", Json.num 2), ("name", Json.str "Ervin")] ]) }
    [ Json.obj [("id", Json.num 1), ("name", Json.str "Leanne")]
    , Json.obj [("id", Json.num 2), ("name", Json.str "Ervin")] ]
    [Json.num 1, Json.num 2]
    rfl rfl rfl
    (List.Forall₂.cons rfl (List.Forall₂.cons rfl List.Forall₂.nil))

/-- C5: each task function issues exactly one HTTP request per invocation,
whatever the client does: there is no retry. -/
theorem single_request_per_invocation (client : Client) (user_id : Int) :
    (fetch_users_data client).snd.length = 1 ∧
    (fetch_user_posts client user_id).snd.length = 1 :=
  ⟨rfl, rfl⟩

/-- C9: `process_all_data` returns `None` for every input; the aggregate is
only printed, never returned. -/
theorem process_all_data_returns_none (all_users_data : List Int)
    (all_posts_data : List (List Json)) :
    (process_all_data all_users_data all_posts_data).snd = none :=
  rfl

/-- C8: when the parsed posts payload is the empty list, the truthiness
guard skips the `posts[0]['title']` access and `fetch_user_posts` returns
the empty list without error. -/
theorem empty_posts_returned_without_indexing (client : Client)
    (user_id : Int) (resp : HttpResponse)
    (hresp : client (postsRequest user_id) = Except.ok resp)
    (hstat : badStatus resp.status = false)
    (hbody : resp.body = some (Json.arr [])) :
    (fetch_user_posts client user_id).fst = Except.ok (Json.arr []) := by
  unfold fetch_user_posts
  simp only [hresp, raise_for_status_of_goodStatus hstat, hbody, responseJson,
    pyLen, truthy, bind, Except.bind, pure, Except.pure, List.isEmpty_nil, Bool.not_true,
    if_neg, Bool.false_eq_true, not_false_eq_true, if_false]

/-- C8 witness: a client answering `200` with an empty posts array. -/
theorem empty_posts_returned_without_indexing_witness :
    (fetch_user_posts (fun _ => Except.ok { status := 200, body := some (Json.arr []) }) 1).fst
      = Except.ok (Json.arr []) :=
  empty_posts_returned_without_indexing
    (fun _ => Except.ok { status := 200, body := some (Json.arr []) }) 1
    { status := 200, body := some (Json.arr []) } rfl rfl rfl

/-- The only error `pyIter` can raise is `TypeError`. -/
theorem pyIter_error {j : Json} {e : PyExn} (h : pyIter j = Except.error e) :
    e = PyExn.typeError := by
  cases j <;> simp only [pyIter] at h <;> first
    | (injection h with h; exact h.symm)
    | exact Except.noConfusion h

/-- The only error `pyLen` can raise is `TypeError`. -/
theorem pyLen_error {j : Json} {e : PyExn} (h : pyLen j = Except.error e) :
    e = PyExn.typeError := by
  cases j <;> simp_all [pyLen]

/-- A dependent if whose branches are `ok` and `IndexError` can only fail
with `IndexError`. -/
theorem dite_ok_or_indexError {P : Prop} [Decidable P] {α : Type} {f : P → α}
    {e : PyExn}
    (h : (if hp : P then Except.ok (f hp) else Except.error PyExn.indexError)
        = Except.error e) :
    e = PyExn.indexError := by
  by_cases hp : P
  · rw [dif_pos hp] at h; exact Except.noConfusion h
  · rw [dif_neg hp] at h; injection h with h; exact h.symm

/-- A subscript never raises a network or HTTP-status error. -/
theorem subscript_error {j : Json} {k : PyKey} {e : PyExn}
    (h : subscript j k = Except.error e) : e.isNetworkOrStatusError = false := by
  cases j with
  | null => cases k <;> (simp only [subscript] at h; injection h with h; subst h; rfl)
  | bool b => cases k <;> (simp only [subscript] at h; injection h with h; subst h; rfl)
  | num n => cases k <;> (simp only [subscript] at h; injection h with h; subst h; rfl)
  | str s =>
      cases k with
      | int i =>
          simp only [subscript] at h
          have he := dite_ok_or_indexError h
          subst he; rfl
      | str s' => simp only [subscript] at h; injection h with h; subst h; rfl
  | arr xs =>
      cases k with
      | int i =>
          simp only [subscript] at h
          have he := dite_ok_or_indexError h
          subst he; rfl
      | str s' => simp only [subscript] at h; injection h with h; subst h; rfl
  | obj fields =>
      cases k with
      | str s' =>
          simp only [subscript] at h
          cases hl : fields.lookup s' with
          | some v => rw [hl] at h; exact Except.noConfusion h
          | none => rw [hl] at h; injection h with h; subst h; rfl
      | int i => simp only [subscript] at h; injection h with h; subst h; rfl

/-- The id-extraction comprehension never raises a network or HTTP-status
error. -/
theorem extractIds_error {l : List Json} {e : PyExn}
    (h : extractIds l = Except.error e) : e.isNetworkOrStatusError = false := by
  induction l with
  | nil => simp [extractIds] at h
  | cons u us ih =>
      simp only [extractIds, bind, Except.bind] at h
      cases hs : subscript u (PyKey.str "id") with
      | error e' =>
          rw [hs] at h
          injection h with h
          subst h
          exact subscript_error hs
      | ok i =>
          rw [hs] at h
          cases ht : extractIds us with
          | error e' =>
              rw [ht] at h
              injection h with h
              subst h
              exact ih ht
          | ok rest => rw [ht] at h; simp [pure, Except.pure] at h

/-- After a successful call with a good status, any error raised by
`fetch_users_data` is not a network or HTTP-status error. -/
theorem fetch_users_data_good_no_network_error {client : Client}
    {resp : HttpResponse} {e : PyExn}
    (hresp : client usersRequest = Except.ok resp)
    (hstat : badStatus resp.status = false)
    (herr : (fetch_users_data client).fst = Except.error e) :
    e.isNetworkOrStatusError = false := by
  unfold fetch_users_data at herr
  simp only [hresp, raise_for_status_of_goodStatus hstat, bind, Except.bind,
    pure, Except.pure] at herr
  cases hb : resp.body with
  | none =>
      simp only [responseJson, hb] at herr
      injection herr with herr
      subst herr
      rfl
  | some j =>
      simp only [responseJson, hb] at herr
      cases hi : pyIter j with
      | error e' =>
          simp only [hi] at herr
          injection herr with herr
          subst herr
          rw [pyIter_error hi]
          rfl
      | ok elems =>
          simp only [hi] at herr
          cases hx : extractIds elems with
          | error e' =>
              simp only [hx] at herr
              injection herr with herr
              subst herr
              exact extractIds_error hx
          | ok ids =>
              simp only [hx] at herr
              cases hl : pyLen j with
              | error e' =>
                  simp only [hl] at herr
                  injection herr with herr
                  subst herr
                  rw [pyLen_error hl]
                  rfl
              | ok len => simp only [hl] at herr; exact Except.noConfusion herr

/-- After a successful call with a good status, any error raised by
`fetch_user_posts` is not a network or HTTP-status error. -/
theorem fetch_user_posts_good_no_network_error {client : Client}
    {user_id : Int} {resp : HttpResponse} {e : PyExn}
    (hresp : client (postsRequest user_id) = Except.ok resp)
    (hstat : badStatus resp.status = false)
    (herr : (fetch_user_posts client user_id).fst = Except.error e) :
    e.isNetworkOrStatusError = false := by
  unfold fetch_user_posts at herr
  simp only [hresp, raise_for_status_of_goodStatus hstat, bind, Except.bind,
    pure, Except.pure] at herr
  cases hb : resp.body with
  | none =>
      simp only [responseJson, hb] at herr
      injection herr with herr
      subst herr
      rfl
  | some j =>
      simp only [responseJson, hb] at herr
      cases hl : pyLen j with
      | error e' =>
          simp only [hl] at herr
          injection herr with herr
          subst herr
          rw [pyLen_error hl]
          rfl
      | ok len =>
          simp only [hl] at herr
          cases htr : truthy j with
          | false => simp only [htr] at herr; simp only [Bool.false_eq_true, if_false] at herr
                     exact Except.noConfusion herr
          | true =>
              simp only [htr] at herr
              simp only [if_true] at herr
              cases h0 : subscript j (PyKey.int 0) with
              | error e' =>
                  simp only [h0] at herr
                  injection herr with herr
                  subst herr
                  exact subscript_error h0
              | ok firstPost =>
                  simp only [h0] at herr
                  cases ht : subscript firstPost (PyKey.str "title") with
                  | error e' =>
                      simp only [ht] at herr
                      injection herr with herr
                      subst herr
                      exact subscript_error ht
                  | ok title => simp only [ht] at herr; exact Except.noConfusion herr

/-- C3: a network failure of the client propagates to the caller as the
same exception, a 4xx/5xx status propagates as the `HTTPError` carrying
that status, and with a good status neither task ever raises a network or
HTTP-status error — for both `fetch_users_data` and `fetch_user_posts`. -/
theorem errors_propagate_unmodified (client : Client) (user_id : Int) :
    ((∀ msg, client usersRequest = Except.error msg →
        (fetch_users_data client).fst
          = Except.error (PyExn.requestException msg)) ∧
      (∀ resp, client usersRequest = Except.ok resp →
        badStatus resp.status = true →
        (fetch_users_data client).fst
          = Except.error (PyExn.httpError resp.status)) ∧
      (∀ resp e, client usersRequest = Except.ok resp →
        badStatus resp.status = false →
        (fetch_users_data client).fst = Except.error e →
        e.isNetworkOrStatusError = false)) ∧
    ((∀ msg, client (postsRequest user_id) = Except.error msg →
        (fetch_user_posts client user_id).fst
          = Except.error (PyExn.requestException msg)) ∧
      (∀ resp, client (postsRequest user_id) = Except.ok resp →
        badStatus resp.status = true →
        (fetch_user_posts client user_id).fst
          = Except.error (PyExn.httpError resp.status)) ∧
      (∀ resp e, client (postsRequest user_id) = Except.ok resp →
        badStatus resp.status = false →
        (fetch_user_posts client user_id).fst = Except.error e →
        e.isNetworkOrStatusError = false)) := by
  refine ⟨⟨?_, ?_, ?_⟩, ⟨?_, ?_, ?_⟩⟩
  · intro msg hmsg
    unfold fetch_users_data
    simp only [hmsg, bind, Except.bind]
  · intro resp hresp hbad
    unfold fetch_users_data
    simp only [hresp, raise_for_status_of_badStatus hbad, bind, Except.bind]
  · intro resp e hresp hgood herr
    exact fetch_users_data_good_no_network_error hresp hgood herr
  · intro msg hmsg
    unfold fetch_user_posts
    simp only [hmsg, bind, Except.bind]
  · intro resp hresp hbad
    unfold fetch_user_posts
    simp only [hresp, raise_for_status_of_badStatus hbad, bind, Except.bind]
  · intro resp e hresp hgood herr
    exact fetch_user_posts_good_no_network_error hresp hgood herr

/-- C3 witness: a connection failure reaches the caller of
`fetch_users_data` as the same exception. -/
theorem errors_propagate_unmodified_witness :
    (fetch_users_data failingClient).fst
      = Except.error (PyExn.requestException "connection refused") :=
  (errors_propagate_unmodified failingClient 1).1.1 "connection refused" rfl

/-- C7: whenever the status check passes but the body is not valid JSON,
each task raises the JSON-decode error. -/
theorem non_json_body_raises (client : Client) (user_id : Int) :
    (∀ resp, client usersRequest = Except.ok resp →
      badStatus resp.status = false → resp.body = none →
      (fetch_users_data client).fst = Except.error PyExn.jsonDecodeError) ∧
    (∀ resp, client (postsRequest user_id) = Except.ok resp →
      badStatus resp.status = false → resp.body = none →
      (fetch_user_posts client user_id).fst
        = Except.error PyExn.jsonDecodeError) := by
  constructor
  · intro resp hresp hstat hbody
    unfold fetch_users_data
    simp only [hresp, raise_for_status_of_goodStatus hstat, hbody, responseJson,
      bind, Except.bind]
  · intro resp hresp hstat hbody
    unfold fetch_user_posts
    simp only [hresp, raise_for_status_of_goodStatus hstat, hbody, responseJson,
      bind, Except.bind]

/-- C7 witness: a `200` response with a non-JSON body makes
`fetch_users_data` raise the decode error. -/
theorem non_json_body_raises_witness :
    (fetch_users_data (fun _ => Except.ok { status := 200, body := none })).fst
      = Except.error PyExn.jsonDecodeError :=
  (non_json_body_raises (fun _ => Except.ok { status := 200, body := none }) 1).1
    { status := 200, body := none } rfl rfl rfl

/-- C4: every request issued by either fetch task is a GET to the fixed
`https://jsonplaceholder.typicode.com/` API with a 10-second timeout. -/
theorem requests_are_fixed_api_gets (client : Client) (user_id : Int) :
    (∀ r ∈ (fetch_users_data client).snd, isApiGet r) ∧
    (∀ r ∈ (fetch_user_posts client user_id).snd, isApiGet r) := by
  constructor
  · intro r hr
    have hru : r = usersRequest := List.mem_singleton.mp hr
    subst hru
    refine ⟨rfl, rfl, "users", ?_⟩
    decide
  · intro r hr
    have hru : r = postsRequest user_id := List.mem_singleton.mp hr
    subst hru
    refine ⟨rfl, rfl, "users/" ++ toString user_id ++ "/posts", ?_⟩
    show "https://jsonplaceholder.typicode.com/users/" ++ toString user_id ++ "/posts"
        = "https://jsonplaceholder.typicode.com/"
            ++ ("users/" ++ toString user_id ++ "/posts")
    rw [show ("https://jsonplaceholder.typicode.com/users/" : String)
        = "https://jsonplaceholder.typicode.com/" ++ "users/" from by decide]
    simp only [String.append_assoc]

/-- C4 witness: the single request of `fetch_users_data` under a trivial
client is such an API GET. -/
theorem requests_are_fixed_api_gets_witness :
    isApiGet usersRequest :=
  (requests_are_fixed_api_gets failingClient 1).1 usersRequest
    (List.mem_singleton.mpr rfl)

/-- C2 counterexample: with one user and two posts for it, the aggregate is
2, but `process_all_data` does not return it — the function returns `None`.
-/
theorem process_all_data_no_return_value_cex :
    (process_all_data [1]
        [[Json.obj [("title", Json.str "a")], Json.obj [("title", Json.str "b")]]]).snd
      = none ∧
    (process_all_data [1]
        [[Json.obj [("title", Json.str "a")], Json.obj [("title", Json.str "b")]]]).snd
      ≠ some 2 := by
  exact ⟨rfl, by decide⟩

/-- C2 (amended): `process_all_data` computes the total post count as the
sum of the lengths of the per-user post lists and reports it in its printed
output; its return value is `None`. -/
theorem process_all_data_aggregates (all_users_data : List Int)
    (all_posts_data : List (List Json)) :
    (process_all_data all_users_data all_posts_data).fst.get? 1
      = some ("Total posts fetched across all users: "
          ++ toString (all_posts_data.foldr (fun posts t => posts.length + t) 0)) ∧
    (process_all_data all_users_data all_posts_data).snd = none := by
  have hsum : ∀ l : List (List Json),
      (l.map List.length).sum = l.foldr (fun posts t => posts.length + t) 0 := by
    intro l
    induction l with
    | nil => rfl
    | cons x xs ih => simp [List.map_cons, List.sum_cons, ih]
  exact ⟨by simp [process_all_data, hsum], rfl⟩

/-- C6: the declared workflow graph is acyclic (witnessed by a topological
rank), `fetch_users_data` is upstream of every mapped `fetch_user_posts`
instance and of `process_all_data`, every mapped instance is upstream of
`process_all_data`, and in every schedule that respects the declared edges
the aggregation runs after every per-user fetch. -/
theorem workflow_dag_structure (n : Nat) :
    (∀ a, ¬ Relation.TransGen (WorkflowEdge n) a a) ∧
    (∀ i, i < n →
      WorkflowEdge n TaskNode.fetchUsersData (TaskNode.fetchUserPosts i)) ∧
    WorkflowEdge n TaskNode.fetchUsersData TaskNode.processAllData ∧
    (∀ i, i < n →
      WorkflowEdge n (TaskNode.fetchUserPosts i) TaskNode.processAllData) ∧
    (∀ ord : TaskNode → Nat,
      (∀ a b, WorkflowEdge n a b → ord a < ord b) →
      ∀ i, i < n →
        ord (TaskNode.fetchUserPosts i) < ord TaskNode.processAllData) := by
  have hrank : ∀ a b, WorkflowEdge n a b → TaskNode.rank a < TaskNode.rank b := by
    intro a b h
    cases h <;> simp [TaskNode.rank]
  refine ⟨?_, ?_, WorkflowEdge.usersToProcess, ?_, ?_⟩
  · intro a hcyc
    have hmono : ∀ x y, Relation.TransGen (WorkflowEdge n) x y →
        TaskNode.rank x < TaskNode.rank y := by
      intro x y h
      induction h with
      | single h => exact hrank _ _ h
      | tail _ h ih => exact lt_trans ih (hrank _ _ h)
    exact lt_irrefl _ (hmono a a hcyc)
  · exact fun i hi => WorkflowEdge.fanOut i hi
  · exact fun i hi => WorkflowEdge.postsToProcess i hi
  · intro ord hord i hi
    exact hord _ _ (WorkflowEdge.postsToProcess i hi)

/-- C6 witness: with two mapped instances and the rank schedule, the
aggregation runs after the first per-user fetch. -/
theorem workflow_dag_structure_witness :
    TaskNode.rank (TaskNode.fetchUserPosts 0) < TaskNode.rank TaskNode.processAllData :=
  (workflow_dag_structure 2).2.2.2.2 TaskNode.rank
    (by intro a b h; cases h <;> simp [TaskNode.rank]) 0 (by decide)

/-- The comprehension fails with `KeyError "id"` at the first user object
lacking an `"id"` field, when every earlier user yields an id. -/
theorem extractIds_missing_id {good : List Json}
    {fields : List (String × Json)} {rest : List Json}
    (hgood : ∀ u ∈ good, ∃ v, subscript u (PyKey.str "id") = Except.ok v)
    (hmiss : fields.lookup "id" = none) :
    extractIds (good ++ Json.obj fields :: rest)
      = Except.error (PyExn.keyError "id") := by
  induction good with
  | nil =>
      simp only [List.nil_append, extractIds, subscript, hmiss, bind, Except.bind]
  | cons u us ih =>
      obtain ⟨v, hv⟩ := hgood u (List.mem_cons_self u us)
      have ih' := ih (fun x hx => hgood x (List.mem_cons_of_mem _ hx))
      simp only [List.cons_append, extractIds, hv, bind, Except.bind,
        List.append_eq, ih']

/-- C10: a successfully fetched list payload containing a user object with
no `"id"` field makes `fetch_users_data` raise `KeyError`, an exception
outside the `requests.exceptions.RequestException` class caught by the
`except` branch, so it propagates directly to the caller. -/
theorem missing_id_raises_keyerror (client : Client) (resp : HttpResponse)
    (good : List Json) (fields : List (String × Json)) (rest : List Json)
    (hresp : client usersRequest = Except.ok resp)
    (hstat : badStatus resp.status = false)
    (hbody : resp.body = some (Json.arr (good ++ Json.obj fields :: rest)))
    (hgood : ∀ u ∈ good, ∃ v, subscript u (PyKey.str "id") = Except.ok v)
    (hmiss : fields.lookup "id" = none) :
    (fetch_users_data client).fst = Except.error (PyExn.keyError "id") ∧
    PyExn.isRequestException (PyExn.keyError "id") = false := by
  constructor
  · unfold fetch_users_data
    simp only [hresp, raise_for_status_of_goodStatus hstat, hbody, responseJson,
      pyIter, extractIds_missing_id hgood hmiss, bind, Except.bind]
  · rfl

/-- C10 witness: a payload whose second user object has no `"id"` field. -/
theorem missing_id_raises_keyerror_witness :
    (fetch_users_data (fun _ => Except.ok
        { status := 200
          body := some (Json.arr
            [Json.obj [("id", Json.num 1)], Json.obj [("name", Json.str "x")]]) })).fst
      = Except.error (PyExn.keyError "id") :=
  (missing_id_raises_keyerror
    (fun _ => Except.ok
      { status := 200
        body := some (Json.arr
          [Json.obj [("id", Json.num 1)], Json.obj [("name", Json.str "x")]]) })
    { status := 200
      body := some (Json.arr
        [Json.obj [("id", Json.num 1)], Json.obj [("name", Json.str "x")]]) }
    [Json.obj [("id", Json.num 1)]] [("name", Json.str "x")] []
    rfl rfl rfl
    (by
      intro u hu
      rw [List.mem_singleton] at hu
      subst hu
      exact ⟨Json.num 1, rfl⟩)
    rfl).1

end ExampleDag
